import Mathlib

/-!
Shallow embedding of the opal extract pipeline (src/opal/core/search/extract.py).

Cells of a CSV are modelled as `String` (the text form that ends up in the file);
Python values that may appear in a serialised record are modelled by `PyVal`:
either a non-list value (carried by its text form) or a list (carried by the
text forms of its elements), which is all `CsvRenderer.get_field_value` inspects.
Django model classes are abstracted by `ModelInfo` (the class-level data the
extract code reads), querysets by Lean lists in iteration order, and the file
system / template layer by a record of fallible operations (`FsOps`), so that
error propagation through the pipeline is observable.
-/

/-- Serialised Python value as seen by `CsvRenderer.get_field_value`: either a
non-list value, represented by its text form, or a list, represented by the
text forms of its elements. -/
inductive PyVal where
  | atom (text : String)
  | list (items : List String)

/-- The requesting user; the extract code reads `user.username` and passes the
user to serialisation and to `Episode.get_tag_names`. -/
structure UserT where
  username : String

/-- Python `str.title()` on the ascii names used for default column display
names: an alphabetic character is uppercased when the previous character is
not alphabetic and lowercased otherwise. -/
def pyTitleAux : Bool → List Char → List Char
  | _, [] => []
  | prevAlpha, c :: cs =>
    if c.isAlpha then
      (if prevAlpha then c.toLower else c.toUpper) :: pyTitleAux true cs
    else
      c :: pyTitleAux false cs

/-- Python `str.title()`. -/
def pyTitle (s : String) : String := ⟨pyTitleAux false s.data⟩

/-- `os.path.join` for the plain relative path components used in extract.py. -/
def pathJoin (a b : String) : String := a ++ "/" ++ b

/-- Embedding of `_encode_to_utf8`: on text it returns the utf-8 encoding of the
same characters, which at the abstraction level of `String` cells is the
identity. -/
def encode_to_utf8 (s : String) : String := s

@[simp] theorem encode_to_utf8_eq (s : String) : encode_to_utf8 s = s := rfl

/-- Class-level data of a Django model that the extract code reads. -/
structure ModelInfo where
  fieldnames_to_extract : List String
  field_title : String → String
  is_singleton : Bool
  display_name : String
  api_name : String
  exclude_from_extract : Bool

/-- An `opal.models.Episode` row, with the attributes the extract code reads.
Attribute values are carried by their text forms; `tag_names` embeds
`get_tag_names(user, historic=True)` and `to_dict` the serialisation used by
`CsvRenderer.get_row`. `end_` stands for the Python attribute `end`. -/
structure Episode where
  id : Nat
  patient_id : Nat
  start : String
  end_ : String
  created : String
  updated : String
  created_by_id : String
  updated_by_id : String
  tag_names : UserT → List String
  to_dict : UserT → String → PyVal

/-- A subrecord row (patient or episode subrecord), with the attributes the
extract code reads. `episode_patient_id` stands for `instance.episode.patient_id`
(meaningful for episode subrecords). -/
structure SubInst where
  id : Nat
  patient_id : Nat
  episode_id : Nat
  episode_patient_id : Nat
  to_dict : UserT → String → PyVal

/-- Serialisation interface: `instance.to_dict(user=...)` read at one field. -/
class PyInstance (Inst : Type) where
  to_dict : Inst → UserT → String → PyVal

instance : PyInstance SubInst := ⟨fun s u f => s.to_dict u f⟩

instance : PyInstance Episode := ⟨fun e u f => e.to_dict u f⟩

/-- Embedding of `CsvColumn`: a custom column with a name, a display name used
in the header, and a value function taking the renderer's user, the instance
and the extra positional arguments of `get_row`. -/
structure CsvColumn (Inst Args : Type) where
  name : String
  display_name : String
  value : UserT → Inst → Args → String

/-- Embedding of `CsvRenderer` instance state after `__init__`: the model, the
queryset in iteration order, the user, the class's `non_field_csv_columns` and
the resolved `fields` list. -/
structure CsvRenderer (Inst Args : Type) where
  model : ModelInfo
  queryset : List Inst
  user : UserT
  non_field_csv_columns : List (CsvColumn Inst Args)
  fields : List String

/-- `CsvRenderer.get_non_field_csv_column_names`. -/
def get_non_field_csv_column_names (cols : List (CsvColumn Inst Args)) : List String :=
  cols.map (fun c => c.name)

/-- `CsvRenderer.get_field_names_to_render`: the model's extract field names
with the first occurrence of `consistency_token` removed, appended (skipping
names already among the non-field csv column names) after the non-field csv
column names. -/
def get_field_names_to_render (model : ModelInfo) (cols : List (CsvColumn Inst Args)) :
    List String :=
  let field_names := model.fieldnames_to_extract
  let field_names :=
    if "consistency_token" ∈ field_names then field_names.erase "consistency_token"
    else field_names
  let result := get_non_field_csv_column_names cols
  field_names.foldl (fun acc fn => if fn ∈ result then acc else acc ++ [fn]) result

/-- Embedding of `__init__`'s `if fields: ... else: self.get_field_names_to_render()`:
an explicit non-empty list wins, otherwise (absent or empty, both falsy) the
class's discovery is used; discovery is `Option`-valued because the subrecord
subclasses' overrides can raise `ValueError`. -/
def resolve_fields (fields : Option (List String)) (discovered : Option (List String)) :
    Option (List String) :=
  match fields with
  | some fs => if fs.isEmpty then discovered else some fs
  | none => discovered

/-- `CsvRenderer.get_headers`: per field, the display name of the matching
non-field csv column if there is one, else the model's field title. -/
def CsvRenderer.get_headers (r : CsvRenderer Inst Args) : List String :=
  r.fields.map (fun field =>
    match r.non_field_csv_columns.find? (fun c => c.name == field) with
    | some c => c.display_name
    | none => r.model.field_title field)

/-- `CsvRenderer.get_field_value`: a list value is rendered as its elements'
text forms joined by a semicolon and a space, any other value as its text form. -/
def get_field_value (field_name : String) (data : String → PyVal) : String :=
  match data field_name with
  | PyVal.list items => String.intercalate "; " items
  | PyVal.atom text => text

/-- `CsvRenderer.get_row`: per field, the matching non-field csv column's value
function applied to the instance and extra arguments if there is one, else the
field's value from the instance's serialised dict; the cells are then encoded. -/
def CsvRenderer.get_row [PyInstance Inst] (r : CsvRenderer Inst Args)
    (inst : Inst) (args : Args) : List String :=
  (r.fields.map (fun field =>
    match r.non_field_csv_columns.find? (fun c => c.name == field) with
    | some c => c.value r.user inst args
    | none => get_field_value field (PyInstance.to_dict inst r.user))).map
    encode_to_utf8

/-- `CsvRenderer.get_rows` (the base-class version, used by every renderer that
does not override it): one row per queryset element, in order. -/
def CsvRenderer.get_rows [PyInstance Inst] (r : CsvRenderer Inst Unit) :
    List (List String) :=
  r.queryset.map (fun inst => r.get_row inst ())

/-- `CsvRenderer.count`: the size of the queryset. -/
def CsvRenderer.count (r : CsvRenderer Inst Args) : Nat := r.queryset.length

/-- Rows written by the base-class `CsvRenderer.write_to_file`: the header row
followed by `get_rows`. -/
def CsvRenderer.write_contents [PyInstance Inst] (r : CsvRenderer Inst Unit) :
    List (List String) :=
  r.get_headers :: r.get_rows

/-- The base-class `CsvRenderer.get_flat_headers` for a given number of
repetitions: with one repetition each header prefixed by the model display
name, otherwise one copy per repetition also carrying the 1-based repetition
number. -/
def flat_headers_of (display_name : String) (headers : List String) (reps : Nat) :
    List String :=
  if reps == 1 then
    headers.map (fun h => display_name ++ " " ++ h)
  else
    (List.range reps).flatMap (fun rep =>
      headers.map (fun h => display_name ++ " " ++ toString (rep + 1) ++ " " ++ h))

/-- The `while len(result) < self.flat_row_length: result.append('')` padding
in the `get_nested_row` overrides. -/
def padTo (n : Nat) (row : List String) : List String :=
  row ++ List.replicate (n - row.length) ""

/-- The `non_field_csv_columns` of `PatientSubrecordCsvRenderer`: an
`episode_id` column displayed as `Episode` whose value is the text form of the
`episode_id` argument passed to `get_row`. -/
def psr_columns : List (CsvColumn SubInst Nat) :=
  [{ name := "episode_id", display_name := "Episode",
     value := fun _ _ episode_id => toString episode_id }]

/-- `PatientSubrecordCsvRenderer.get_field_names_to_render`: the base result
with `id` removed; Python's `list.remove` raises `ValueError` when `id` is
absent, embedded as `none`. -/
def psr_field_names_to_render (model : ModelInfo) : Option (List String) :=
  let field_names := get_field_names_to_render model psr_columns
  if "id" ∈ field_names then some (field_names.erase "id") else none

/-- A constructed `PatientSubrecordCsvRenderer`: the base renderer state
together with the episode queryset it was built from (from which the
`patient_to_episode` mapping of `__init__` is read off). -/
structure PSRenderer where
  base : CsvRenderer SubInst Nat
  episode_queryset : List Episode

/-- The `patient_to_episode` defaultdict built in
`PatientSubrecordCsvRenderer.__init__`: for a patient id, the ids of the
episodes of that patient in the episode queryset, in queryset order (empty for
a patient with no episode there). -/
def PSRenderer.patient_to_episode (r : PSRenderer) (pid : Nat) : List Nat :=
  (r.episode_queryset.filter (fun e => e.patient_id == pid)).map (fun e => e.id)

/-- `PatientSubrecordCsvRenderer.__init__`: the renderer queryset is the
model's rows whose patient has an episode in the episode queryset
(`filter(patient__in=list(self.patient_to_episode.keys()))`); `none` embeds the
`ValueError` possibly raised by field-name discovery. -/
def mkPSR (model : ModelInfo) (objects : List SubInst) (episode_queryset : List Episode)
    (user : UserT) (fields : Option (List String)) : Option PSRenderer :=
  let queryset := objects.filter (fun s =>
    episode_queryset.any (fun e => e.patient_id == s.patient_id))
  match resolve_fields fields (psr_field_names_to_render model) with
  | some fs =>
    some { base := { model := model, queryset := queryset, user := user,
                     non_field_csv_columns := psr_columns, fields := fs },
           episode_queryset := episode_queryset }
  | none => none

/-- `PatientSubrecordCsvRenderer.get_rows`: for each subrecord in the queryset,
one row per episode of its patient, carrying that episode's id. -/
def PSRenderer.get_rows (r : PSRenderer) : List (List String) :=
  r.base.queryset.flatMap (fun sub =>
    (r.patient_to_episode sub.patient_id).map (fun episode_id =>
      r.base.get_row sub episode_id))

/-- `PatientSubrecordCsvRenderer.flat_repetitions`: 0 for an empty queryset, 1
for a singleton model, else the largest number of queryset rows sharing one
patient (`values('patient_id').annotate(Count(...)).aggregate(Max(...))`). -/
def PSRenderer.flat_repetitions (r : PSRenderer) : Nat :=
  if r.base.queryset.isEmpty then 0
  else if r.base.model.is_singleton then 1
  else
    ((r.base.queryset.map (fun s => s.patient_id)).dedup.map (fun pid =>
      (r.base.queryset.filter (fun s => s.patient_id == pid)).length)).foldl Nat.max 0

/-- `get_flat_headers` for a `PatientSubrecordCsvRenderer` (base-class body with
its own `flat_repetitions`). -/
def PSRenderer.get_flat_headers (r : PSRenderer) : List String :=
  flat_headers_of r.base.model.display_name r.base.get_headers r.flat_repetitions

/-- `flat_row_length` for a `PatientSubrecordCsvRenderer`. -/
def PSRenderer.flat_row_length (r : PSRenderer) : Nat :=
  r.get_flat_headers.length

/-- `PatientSubrecordCsvRenderer.get_nested_row`: the rows of the queryset's
subrecords belonging to the episode's patient (`filter(patient__episode=episode)`),
concatenated and padded with empty cells up to `flat_row_length`. -/
def PSRenderer.get_nested_row (r : PSRenderer) (episode : Episode) : List String :=
  let nested_subrecords := r.base.queryset.filter (fun s =>
    s.patient_id == episode.patient_id)
  padTo r.flat_row_length
    (nested_subrecords.flatMap (fun s => r.base.get_row s episode.id))

/-- Rows written by `write_to_file` on a `PatientSubrecordCsvRenderer` (the
inherited method dispatching to the overridden `get_rows`). -/
def PSRenderer.write_contents (r : PSRenderer) : List (List String) :=
  r.base.get_headers :: r.get_rows

/-- The `non_field_csv_columns` of `EpisodeSubrecordCsvRenderer`: a
`patient_id` column displayed as `Patient` whose value is the text form of
`instance.episode.patient_id`. -/
def esr_columns : List (CsvColumn SubInst Unit) :=
  [{ name := "patient_id", display_name := "Patient",
     value := fun _ inst _ => toString inst.episode_patient_id }]

/-- `EpisodeSubrecordCsvRenderer.get_field_names_to_render`: the base result
with `id` removed; `none` embeds the `ValueError` when `id` is absent. -/
def esr_field_names_to_render (model : ModelInfo) : Option (List String) :=
  let field_names := get_field_names_to_render model esr_columns
  if "id" ∈ field_names then some (field_names.erase "id") else none

/-- `EpisodeSubrecordCsvRenderer.__init__`: the renderer queryset is the
model's rows whose episode is in the episode queryset
(`filter(episode__in=episode_queryset)`). -/
def mkESR (model : ModelInfo) (objects : List SubInst) (episode_queryset : List Episode)
    (user : UserT) (fields : Option (List String)) : Option (CsvRenderer SubInst Unit) :=
  let queryset := objects.filter (fun s =>
    episode_queryset.any (fun e => e.id == s.episode_id))
  (resolve_fields fields (esr_field_names_to_render model)).map (fun fs =>
    { model := model, queryset := queryset, user := user,
      non_field_csv_columns := esr_columns, fields := fs })

/-- `EpisodeSubrecordCsvRenderer.flat_repetitions`: 0 for an empty queryset, 1
for a singleton model, else the largest number of queryset rows sharing one
episode. -/
def esr_flat_repetitions (r : CsvRenderer SubInst Unit) : Nat :=
  if r.queryset.isEmpty then 0
  else if r.model.is_singleton then 1
  else
    ((r.queryset.map (fun s => s.episode_id)).dedup.map (fun eid =>
      (r.queryset.filter (fun s => s.episode_id == eid)).length)).foldl Nat.max 0

/-- `get_flat_headers` for an `EpisodeSubrecordCsvRenderer`. -/
def esr_get_flat_headers (r : CsvRenderer SubInst Unit) : List String :=
  flat_headers_of r.model.display_name r.get_headers (esr_flat_repetitions r)

/-- `flat_row_length` for an `EpisodeSubrecordCsvRenderer`. -/
def esr_flat_row_length (r : CsvRenderer SubInst Unit) : Nat :=
  (esr_get_flat_headers r).length

/-- `EpisodeSubrecordCsvRenderer.get_nested_row`: the rows of the queryset's
subrecords of the episode (`filter(episode=episode)`), concatenated and padded
with empty cells up to `flat_row_length`. -/
def esr_get_nested_row (r : CsvRenderer SubInst Unit) (episode : Episode) : List String :=
  let nested_subrecords := r.queryset.filter (fun s => s.episode_id == episode.id)
  padTo (esr_flat_row_length r) (nested_subrecords.flatMap (fun s => r.get_row s ()))

/-- The `non_field_csv_columns` of `EpisodeCsvRenderer`. Where the source gives
no explicit value the `CsvColumn.__init__` defaults apply: the value is
`getattr(obj, name)` (here spelled out per attribute) and the display name is
`name.title()`. -/
def episode_columns : List (CsvColumn Episode Unit) :=
  [ { name := "team", display_name := pyTitle "team",
      value := fun u e _ => String.intercalate ";" (e.tag_names u) },
    { name := "start", display_name := pyTitle "start", value := fun _ e _ => e.start },
    { name := "end", display_name := pyTitle "end", value := fun _ e _ => e.end_ },
    { name := "created", display_name := pyTitle "created", value := fun _ e _ => e.created },
    { name := "updated", display_name := pyTitle "updated", value := fun _ e _ => e.updated },
    { name := "created_by_id", display_name := "Created By",
      value := fun _ e _ => e.created_by_id },
    { name := "updated_by_id", display_name := "Updated By",
      value := fun _ e _ => e.updated_by_id },
    { name := "patient_id", display_name := "Patient",
      value := fun _ e _ => toString e.patient_id } ]

/-- `EpisodeCsvRenderer(...)`: constructed over the episode queryset itself;
its field-name discovery is the base-class one, which cannot fail. -/
def mkEpisodeCsvRenderer (episode_model : ModelInfo) (episodes : List Episode)
    (user : UserT) (fields : Option (List String)) : CsvRenderer Episode Unit :=
  { model := episode_model, queryset := episodes, user := user,
    non_field_csv_columns := episode_columns,
    fields :=
      (resolve_fields fields
        (some (get_field_names_to_render episode_model episode_columns))).getD [] }

/-- `EpisodeCsvRenderer.get_flat_headers`: each header prefixed by `Episode `. -/
def episode_get_flat_headers (r : CsvRenderer Episode Unit) : List String :=
  r.get_headers.map (fun h => "Episode " ++ h)

/-- `flat_row_length` for an `EpisodeCsvRenderer` (base-class body with the
overridden `get_flat_headers`). -/
def episode_flat_row_length (r : CsvRenderer Episode Unit) : Nat :=
  (episode_get_flat_headers r).length

/-- `EpisodeCsvRenderer.get_nested_row`: the plain `get_row` of the episode. -/
def episode_get_nested_row (r : CsvRenderer Episode Unit) (episode : Episode) :
    List String :=
  r.get_row episode ()

/-- Whether a subrecord class is a patient subrecord or an episode subrecord
(membership in `subrecords.episode_subrecords()`). -/
inductive SubKind where
  | patientSub
  | episodeSub
deriving DecidableEq

/-- Modelled from the spec: a registered subrecord class as the extract code
sees it. The registry module `opal.core.subrecords` is not under src; a
subrecord type is carried here with its kind, its class-level data and its
database rows in default queryset order. -/
structure SubrecordModel where
  kind : SubKind
  model : ModelInfo
  objects : List SubInst

/-- Modelled from the spec: the application environment the pipeline iterates
over, namely the class-level data of `opal.models.Episode` (not under src) and
the list returned by `subrecords.subrecords()` in registry order. -/
structure Env where
  episode_model : ModelInfo
  subrecords : List SubrecordModel

/-- Modelled from the spec: `subrecords.get_subrecord_from_api_name`, which is
not under src; it resolves an api name to the registered subrecord class and
fails on an unknown name. -/
def lookup_subrecord (env : Env) (api_name : String) : Option SubrecordModel :=
  env.subrecords.find? (fun s => s.model.api_name == api_name)

/-- Errors of the embedded pipeline: an error raised by a file-system or
framework operation, passed through unchanged, or a Python `ValueError` raised
by the extract code itself (`list.remove`, unknown api name). -/
inductive PyError (ε : Type) where
  | fsError (e : ε)
  | valueError

/-- The fallible file-system and framework operations the pipeline calls:
`tempfile.mkdtemp`, `os.mkdir`, the data-dictionary template rendering, plain
text file writing, and csv file writing (open + `csv.writer` rows). -/
structure FsOps (ε : Type) where
  mkdtemp : Except ε String
  mkdir : String → Except ε Unit
  render_data_schema : Except ε String
  write_text : String → String → Except ε Unit
  write_file : String → List (List String) → Except ε Unit

/-- Run an operation, passing its error through unchanged. -/
def liftFs : Except ε α → Except (PyError ε) α
  | Except.ok a => Except.ok a
  | Except.error e => Except.error (PyError.fsError e)

/-- `write_data_dictionary`: render the schema template and write it to the
file. -/
def write_data_dictionaryE (ops : FsOps ε) (file_name : String) :
    Except (PyError ε) Unit :=
  match liftFs ops.render_data_schema with
  | Except.error e => Except.error e
  | Except.ok rendered => liftFs (ops.write_text file_name rendered)

/-- `CsvRenderer.write_to_file`: write the header row and the data rows. -/
def CsvRenderer.write_to_fileE [PyInstance Inst] (ops : FsOps ε)
    (r : CsvRenderer Inst Unit) (file_name : String) : Except (PyError ε) Unit :=
  liftFs (ops.write_file file_name r.write_contents)

/-- `write_to_file` on a `PatientSubrecordCsvRenderer` (inherited method,
overridden `get_rows`). -/
def PSRenderer.write_to_fileE (ops : FsOps ε) (r : PSRenderer) (file_name : String) :
    Except (PyError ε) Unit :=
  liftFs (ops.write_file file_name r.write_contents)

/-- The matching-row count of the subrecord renderer that
`generate_multi_csv_extract` builds for a subrecord type: its queryset size. -/
def subrecord_match_count (s : SubrecordModel) (episodes : List Episode) : Nat :=
  match s.kind with
  | SubKind.episodeSub =>
    (s.objects.filter (fun o => episodes.any (fun e => e.id == o.episode_id))).length
  | SubKind.patientSub =>
    (s.objects.filter (fun o => episodes.any (fun e => e.patient_id == o.patient_id))).length

/-- The `for subrecord in subrecords.subrecords()` loop of
`generate_multi_csv_extract`: skip classes marked `_exclude_from_extract`,
build the episode- or patient-subrecord renderer without explicit fields, and
when its count is non-zero write `<api_name>.csv` and record the file name. -/
def multi_subrecord_extract (ops : FsOps ε) (root_dir : String)
    (episodes : List Episode) (user : UserT) :
    List SubrecordModel → List (String × String) →
    Except (PyError ε) (List (String × String))
  | [], file_names => Except.ok file_names
  | s :: rest, file_names =>
    if s.model.exclude_from_extract then
      multi_subrecord_extract ops root_dir episodes user rest file_names
    else
      let file_name := s.model.api_name ++ ".csv"
      let full_file_name := pathJoin root_dir file_name
      match s.kind with
      | SubKind.episodeSub =>
        match mkESR s.model s.objects episodes user none with
        | none => Except.error PyError.valueError
        | some renderer =>
          if renderer.count != 0 then
            match renderer.write_to_fileE ops full_file_name with
            | Except.error e => Except.error e
            | Except.ok _ =>
              multi_subrecord_extract ops root_dir episodes user rest
                (file_names ++ [(full_file_name, file_name)])
          else
            multi_subrecord_extract ops root_dir episodes user rest file_names
      | SubKind.patientSub =>
        match mkPSR s.model s.objects episodes user none with
        | none => Except.error PyError.valueError
        | some renderer =>
          if renderer.base.count != 0 then
            match PSRenderer.write_to_fileE ops renderer full_file_name with
            | Except.error e => Except.error e
            | Except.ok _ =>
              multi_subrecord_extract ops root_dir episodes user rest
                (file_names ++ [(full_file_name, file_name)])
          else
            multi_subrecord_extract ops root_dir episodes user rest file_names

/-- `generate_multi_csv_extract`: write the data dictionary, then
`episodes.csv` from an `EpisodeCsvRenderer` without explicit fields, then one
csv per non-excluded subrecord type with a non-zero count; return the
`(absolute file name, file name)` pairs. -/
def generate_multi_csv_extractE (ops : FsOps ε) (env : Env) (root_dir : String)
    (episodes : List Episode) (user : UserT) :
    Except (PyError ε) (List (String × String)) :=
  let file_name := "data_dictionary.html"
  let full1 := pathJoin root_dir file_name
  match write_data_dictionaryE ops full1 with
  | Except.error e => Except.error e
  | Except.ok _ =>
    let file_name2 := "episodes.csv"
    let full2 := pathJoin root_dir file_name2
    let renderer := mkEpisodeCsvRenderer env.episode_model episodes user none
    match renderer.write_to_fileE ops full2 with
    | Except.error e => Except.error e
    | Except.ok _ =>
      multi_subrecord_extract ops root_dir episodes user env.subrecords
        [(full1, file_name), (full2, file_name2)]

/-- The interface of a renderer that `generate_nested_csv_extract` uses: its
flat headers, its `flat_row_length` and its `get_nested_row`. -/
structure NestedRenderer where
  flat_headers : List String
  flat_row_length : Nat
  nested_row : Episode → List String

/-- The nested interface of an `EpisodeCsvRenderer`. -/
def episodeNestedRenderer (r : CsvRenderer Episode Unit) : NestedRenderer :=
  { flat_headers := episode_get_flat_headers r,
    flat_row_length := episode_flat_row_length r,
    nested_row := episode_get_nested_row r }

/-- The nested interface of a `PatientSubrecordCsvRenderer`. -/
def psrNestedRenderer (r : PSRenderer) : NestedRenderer :=
  { flat_headers := r.get_flat_headers,
    flat_row_length := r.flat_row_length,
    nested_row := r.get_nested_row }

/-- The nested interface of an `EpisodeSubrecordCsvRenderer`. -/
def esrNestedRenderer (r : CsvRenderer SubInst Unit) : NestedRenderer :=
  { flat_headers := esr_get_flat_headers r,
    flat_row_length := esr_flat_row_length r,
    nested_row := esr_get_nested_row r }

/-- One iteration of the renderer-building loop of
`generate_nested_csv_extract` for a non-episode item of the field dict: resolve
the api name and build the episode- or patient-subrecord renderer with the
item's fields. -/
def build_one_nested (env : Env) (episodes : List Episode) (user : UserT)
    (item : String × List String) : Option NestedRenderer :=
  match lookup_subrecord env item.1 with
  | none => none
  | some s =>
    match s.kind with
    | SubKind.episodeSub =>
      (mkESR s.model s.objects episodes user (some item.2)).map esrNestedRenderer
    | SubKind.patientSub =>
      (mkPSR s.model s.objects episodes user (some item.2)).map psrNestedRenderer

/-- The renderer-building loop over the non-episode items, in field-dict
order; the first failure aborts (a raised `ValueError`). -/
def build_rest_nested (env : Env) (episodes : List Episode) (user : UserT) :
    List (String × List String) → Option (List NestedRenderer)
  | [] => some []
  | item :: rest =>
    match build_one_nested env episodes user item,
          build_rest_nested env episodes user rest with
    | some r, some rs => some (r :: rs)
    | _, _ => none

/-- The renderers of `generate_nested_csv_extract`: an `EpisodeCsvRenderer`
with the fields of the `episode` key when that key is present, followed by one
subrecord renderer per other item of the field dict, in order. -/
def build_nested_renderers (env : Env) (episodes : List Episode) (user : UserT)
    (field_dict : List (String × List String)) : Option (List NestedRenderer) :=
  let initial :=
    match field_dict.find? (fun kv => kv.1 == "episode") with
    | some kv =>
      [episodeNestedRenderer (mkEpisodeCsvRenderer env.episode_model episodes user
        (some kv.2))]
    | none => []
  match build_rest_nested env episodes user
      (field_dict.filter (fun kv => kv.1 != "episode")) with
  | some rest => some (initial ++ rest)
  | none => none

/-- The rows written to `extract.csv` by `generate_nested_csv_extract`: one
header row concatenating every renderer's flat headers, then per episode one
row concatenating every renderer's nested row. -/
def nested_csv_content (renderers : List NestedRenderer) (episodes : List Episode) :
    List (List String) :=
  (renderers.flatMap (fun r => r.flat_headers)) ::
    episodes.map (fun ep => renderers.flatMap (fun r => r.nested_row ep))

/-- `generate_nested_csv_extract`: write the data dictionary, build the
renderers from the field dict, write the single `extract.csv`, and return the
two `(absolute file name, file name)` pairs. -/
def generate_nested_csv_extractE (ops : FsOps ε) (env : Env) (root_dir : String)
    (episodes : List Episode) (user : UserT)
    (field_dict : List (String × List String)) :
    Except (PyError ε) (List (String × String)) :=
  let data_dict_file_name := "data_dictionary.html"
  let full1 := pathJoin root_dir data_dict_file_name
  match write_data_dictionaryE ops full1 with
  | Except.error e => Except.error e
  | Except.ok _ =>
    let csv_file_name := "extract.csv"
    let full2 := pathJoin root_dir csv_file_name
    match build_nested_renderers env episodes user field_dict with
    | none => Except.error PyError.valueError
    | some renderers =>
      match liftFs (ops.write_file full2 (nested_csv_content renderers episodes)) with
      | Except.error e => Except.error e
      | Except.ok _ =>
        Except.ok [(full1, data_dict_file_name), (full2, csv_file_name)]

/-- `zip_archive`: make a temporary directory, create `extract.zip` there, make
the `<username>.<date>` folder, run the nested extract when a truthy `fields`
dict is given and the multi-file extract otherwise, and add every produced
file to the archive under the folder. The result is the target path together
with the archive's entry names. `description` is unused by the source body. -/
def zip_archiveE (ops : FsOps ε) (env : Env) (episodes : List Episode)
    (_description : String) (user : UserT) (today : String)
    (fields : Option (List (String × List String))) :
    Except (PyError ε) (String × List String) :=
  match liftFs ops.mkdtemp with
  | Except.error e => Except.error e
  | Except.ok target_dir =>
    let target := pathJoin target_dir "extract.zip"
    let zipfolder := user.username ++ "." ++ today
    let root_dir := pathJoin target_dir zipfolder
    match liftFs (ops.mkdir root_dir) with
    | Except.error e => Except.error e
    | Except.ok _ =>
      let extract_result :=
        match fields with
        | some fd =>
          if fd.isEmpty then generate_multi_csv_extractE ops env root_dir episodes user
          else generate_nested_csv_extractE ops env root_dir episodes user fd
        | none => generate_multi_csv_extractE ops env root_dir episodes user
      match extract_result with
      | Except.error e => Except.error e
      | Except.ok file_names =>
        Except.ok (target, file_names.map (fun fn => pathJoin zipfolder fn.2))

/-- An extract query passed to the asynchronous extract; its content is opaque
to `async_extract`. -/
structure ExtractQuery where
  criteria : String

/-- A task handle returned by the task queue. -/
structure AsyncTask where
  id : Nat

/-- The state of the task queue: the submitted jobs, in submission order. -/
structure TaskQueue where
  submitted : List (UserT × ExtractQuery)

/-- Modelled from the spec: `opal.core.search.tasks` is not under src; the
spec says the asynchronous element simply forwards work to a task queue.
`tasks.extract.delay(user, extract_query)` records the job on the queue and
returns a task handle carrying an id. -/
def tasks_extract_delay (q : TaskQueue) (user : UserT) (extract_query : ExtractQuery) :
    AsyncTask × TaskQueue :=
  ({ id := q.submitted.length },
   { submitted := q.submitted ++ [(user, extract_query)] })

/-- `async_extract`: submit `tasks.extract` with the user and the query and
return the resulting task's id. -/
def async_extract (q : TaskQueue) (user : UserT) (extract_query : ExtractQuery) :
    Nat × TaskQueue :=
  let r := tasks_extract_delay q user extract_query
  (r.1.id, r.2)

/-! Helper lemmas about the embedded definitions. -/

theorem foldl_mem_append (s : List String) (l : List String) :
    ∀ acc : List String,
    l.foldl (fun acc fn => if fn ∈ s then acc else acc ++ [fn]) acc
      = acc ++ l.filter (fun f => decide (f ∉ s)) := by
  induction l with
  | nil => intro acc; simp
  | cons fn t ih =>
    intro acc
    by_cases h : fn ∈ s
    · simp [List.foldl_cons, List.filter_cons, h, ih]
    · simp [List.foldl_cons, List.filter_cons, h, ih]

theorem get_field_names_eq (model : ModelInfo) (cols : List (CsvColumn Inst Args)) :
    get_field_names_to_render model cols
      = get_non_field_csv_column_names cols
        ++ (model.fieldnames_to_extract.erase "consistency_token").filter
            (fun f => decide (f ∉ get_non_field_csv_column_names cols)) := by
  unfold get_field_names_to_render
  by_cases h : "consistency_token" ∈ model.fieldnames_to_extract
  · simp only [h, if_true, foldl_mem_append]
  · simp only [h, if_false, foldl_mem_append, List.erase_of_not_mem h]

theorem get_field_names_nodup (model : ModelInfo) (cols : List (CsvColumn Inst Args))
    (hn : (get_non_field_csv_column_names cols).Nodup)
    (hf : model.fieldnames_to_extract.Nodup) :
    (get_field_names_to_render model cols).Nodup := by
  rw [get_field_names_eq]
  refine List.Nodup.append hn (List.Nodup.filter _ (List.Nodup.erase _ hf)) ?_
  intro x hx hx2
  have hpx := List.of_mem_filter hx2
  simp only [decide_eq_true_eq] at hpx
  exact hpx hx

theorem mem_get_field_names_iff (model : ModelInfo) (cols : List (CsvColumn Inst Args))
    (x : String) (hx : x ≠ "consistency_token") :
    x ∈ get_field_names_to_render model cols
      ↔ x ∈ get_non_field_csv_column_names cols ∨ x ∈ model.fieldnames_to_extract := by
  rw [get_field_names_eq]
  simp only [List.mem_append, List.mem_filter, List.mem_erase_of_ne hx, decide_eq_true_eq]
  constructor
  · rintro (h | ⟨h1, _⟩)
    · exact Or.inl h
    · exact Or.inr h1
  · rintro (h | h)
    · exact Or.inl h
    · by_cases hn : x ∈ get_non_field_csv_column_names cols
      · exact Or.inl hn
      · exact Or.inr ⟨h, hn⟩

theorem le_foldl_max (l : List Nat) : ∀ b : Nat, b ≤ l.foldl Nat.max b := by
  induction l with
  | nil => intro b; simp
  | cons x t ih =>
    intro b
    rw [List.foldl_cons]
    exact le_trans (Nat.le_max_left b x) (ih (Nat.max b x))

theorem mem_le_foldl_max (l : List Nat) (a : Nat) (h : a ∈ l) :
    ∀ b, a ≤ l.foldl Nat.max b := by
  induction l with
  | nil => cases h
  | cons x t ih =>
    intro b
    rw [List.foldl_cons]
    rcases List.mem_cons.mp h with h1 | h1
    · subst h1; exact le_trans (Nat.le_max_right b a) (le_foldl_max t _)
    · exact ih h1 _

theorem count_le_group_max (l : List α) (k : α → Nat) (pid : Nat) :
    (l.filter (fun s => k s == pid)).length
      ≤ ((l.map k).dedup.map (fun p =>
          (l.filter (fun s => k s == p)).length)).foldl Nat.max 0 := by
  by_cases h : pid ∈ l.map k
  · refine mem_le_foldl_max _ _ ?_ 0
    exact List.mem_map.mpr ⟨pid, List.mem_dedup.mpr h, rfl⟩
  · have hnil : l.filter (fun s => k s == pid) = [] := by
      rw [List.filter_eq_nil_iff]
      intro a ha hk
      exact h (List.mem_map.mpr ⟨a, ha, beq_iff_eq.mp hk⟩)
    simp [hnil]

theorem padTo_length (n : Nat) (row : List String) (h : row.length ≤ n) :
    (padTo n row).length = n := by
  unfold padTo
  rw [List.length_append, List.length_replicate]
  omega

theorem sum_map_const_nat (l : List α) (b : Nat) :
    (l.map (fun _ => b)).sum = l.length * b := by
  induction l with
  | nil => simp
  | cons x t ih =>
    simp only [List.map_cons, List.sum_cons, ih, List.length_cons]
    ring

theorem flat_headers_of_length (d : String) (hs : List String) (reps : Nat) :
    (flat_headers_of d hs reps).length = reps * hs.length := by
  unfold flat_headers_of
  by_cases h : reps = 1
  · simp [h]
  · have hb : (reps == 1) = false := by simp [h]
    rw [hb]
    simp only [Bool.false_eq_true, if_false, List.length_flatMap]
    have hmap : (List.range reps).map (List.length ∘ fun rep =>
        hs.map (fun h => d ++ " " ++ toString (rep + 1) ++ " " ++ h))
        = (List.range reps).map (fun _ => hs.length) := by
      apply List.map_congr_left
      intro rep _
      simp
    rw [hmap, sum_map_const_nat, List.length_range]

theorem get_row_length [PyInstance Inst] (r : CsvRenderer Inst Args) (inst : Inst)
    (args : Args) : (r.get_row inst args).length = r.fields.length := by
  unfold CsvRenderer.get_row
  simp

theorem get_headers_length (r : CsvRenderer Inst Args) :
    r.get_headers.length = r.fields.length := by
  unfold CsvRenderer.get_headers
  simp

theorem flatMap_get_row_length (r : CsvRenderer SubInst Nat) (eid : Nat)
    (l : List SubInst) :
    (l.flatMap (fun s => r.get_row s eid)).length = l.length * r.fields.length := by
  induction l with
  | nil => simp
  | cons x t ih =>
    simp only [List.flatMap_cons, List.length_append, get_row_length, ih,
      List.length_cons]
    ring

theorem flatMap_get_row_unit_length (r : CsvRenderer SubInst Unit)
    (l : List SubInst) :
    (l.flatMap (fun s => r.get_row s ())).length = l.length * r.fields.length := by
  induction l with
  | nil => simp
  | cons x t ih =>
    simp only [List.flatMap_cons, List.length_append, get_row_length, ih,
      List.length_cons]
    ring

theorem psr_flat_row_length_eq (r : PSRenderer) :
    r.flat_row_length = r.flat_repetitions * r.base.fields.length := by
  unfold PSRenderer.flat_row_length PSRenderer.get_flat_headers
  rw [flat_headers_of_length, get_headers_length]

theorem psr_nested_row_length (r : PSRenderer) (ep : Episode)
    (hsing : r.base.model.is_singleton = true →
      ∀ pid, (r.base.queryset.filter (fun s => s.patient_id == pid)).length ≤ 1) :
    (r.get_nested_row ep).length = r.flat_row_length := by
  unfold PSRenderer.get_nested_row
  rw [psr_flat_row_length_eq]
  apply padTo_length
  rw [flatMap_get_row_length]
  apply Nat.mul_le_mul_right
  unfold PSRenderer.flat_repetitions
  by_cases hemp : r.base.queryset.isEmpty
  · have h0 : r.base.queryset = [] := List.isEmpty_iff.mp hemp
    simp [hemp, h0]
  · by_cases hs : r.base.model.is_singleton
    · simp only [hemp, Bool.false_eq_true, if_false, hs, if_true]
      exact hsing hs ep.patient_id
    · simp only [hemp, Bool.false_eq_true, if_false, hs, if_false]
      exact count_le_group_max _ (fun s : SubInst => s.patient_id) ep.patient_id

theorem esr_flat_row_length_eq (r : CsvRenderer SubInst Unit) :
    esr_flat_row_length r = esr_flat_repetitions r * r.fields.length := by
  unfold esr_flat_row_length esr_get_flat_headers
  rw [flat_headers_of_length, get_headers_length]

theorem esr_nested_row_length (r : CsvRenderer SubInst Unit) (ep : Episode)
    (hsing : r.model.is_singleton = true →
      ∀ eid, (r.queryset.filter (fun s => s.episode_id == eid)).length ≤ 1) :
    (esr_get_nested_row r ep).length = esr_flat_row_length r := by
  unfold esr_get_nested_row
  rw [esr_flat_row_length_eq]
  apply padTo_length
  rw [flatMap_get_row_unit_length]
  apply Nat.mul_le_mul_right
  unfold esr_flat_repetitions
  by_cases hemp : r.queryset.isEmpty
  · have h0 : r.queryset = [] := List.isEmpty_iff.mp hemp
    simp [hemp, h0]
  · by_cases hs : r.model.is_singleton
    · simp only [hemp, Bool.false_eq_true, if_false, hs, if_true]
      exact hsing hs ep.id
    · simp only [hemp, Bool.false_eq_true, if_false, hs, if_false]
      exact count_le_group_max _ (fun s : SubInst => s.episode_id) ep.id

theorem episode_nested_row_length (r : CsvRenderer Episode Unit) (ep : Episode) :
    (episode_get_nested_row r ep).length = episode_flat_row_length r := by
  unfold episode_get_nested_row episode_flat_row_length episode_get_flat_headers
  rw [get_row_length, List.length_map, get_headers_length]

theorem mkPSR_inv {model : ModelInfo} {objects : List SubInst} {eps : List Episode}
    {user : UserT} {fields : Option (List String)} {r : PSRenderer}
    (h : mkPSR model objects eps user fields = some r) :
    r.base.model = model
    ∧ r.base.queryset = objects.filter (fun s =>
        eps.any (fun e => e.patient_id == s.patient_id))
    ∧ r.episode_queryset = eps
    ∧ r.base.user = user
    ∧ r.base.non_field_csv_columns = psr_columns
    ∧ resolve_fields fields (psr_field_names_to_render model) = some r.base.fields := by
  unfold mkPSR at h
  cases hrf : resolve_fields fields (psr_field_names_to_render model) with
  | none => rw [hrf] at h; cases h
  | some fs =>
    rw [hrf] at h
    injection h with h
    subst h
    exact ⟨rfl, rfl, rfl, rfl, rfl, rfl⟩

theorem mkESR_inv {model : ModelInfo} {objects : List SubInst} {eps : List Episode}
    {user : UserT} {fields : Option (List String)} {r : CsvRenderer SubInst Unit}
    (h : mkESR model objects eps user fields = some r) :
    r.model = model
    ∧ r.queryset = objects.filter (fun s => eps.any (fun e => e.id == s.episode_id))
    ∧ r.user = user
    ∧ r.non_field_csv_columns = esr_columns
    ∧ resolve_fields fields (esr_field_names_to_render model) = some r.fields := by
  unfold mkESR at h
  cases hrf : resolve_fields fields (esr_field_names_to_render model) with
  | none => rw [hrf] at h; cases h
  | some fs =>
    rw [hrf] at h
    injection h with h
    subst h
    exact ⟨rfl, rfl, rfl, rfl, rfl⟩

theorem psr_field_names_inv {model : ModelInfo} {l : List String}
    (h : psr_field_names_to_render model = some l) :
    "id" ∈ get_field_names_to_render model psr_columns
    ∧ l = (get_field_names_to_render model psr_columns).erase "id" := by
  unfold psr_field_names_to_render at h
  by_cases hid : "id" ∈ get_field_names_to_render model psr_columns
  · rw [if_pos hid] at h
    injection h with h
    exact ⟨hid, h.symm⟩
  · rw [if_neg hid] at h
    cases h

theorem esr_field_names_inv {model : ModelInfo} {l : List String}
    (h : esr_field_names_to_render model = some l) :
    "id" ∈ get_field_names_to_render model esr_columns
    ∧ l = (get_field_names_to_render model esr_columns).erase "id" := by
  unfold esr_field_names_to_render at h
  by_cases hid : "id" ∈ get_field_names_to_render model esr_columns
  · rw [if_pos hid] at h
    injection h with h
    exact ⟨hid, h.symm⟩
  · rw [if_neg hid] at h
    cases h

theorem ctoken_not_mem_field_names (model : ModelInfo)
    (cols : List (CsvColumn Inst Args))
    (hf : model.fieldnames_to_extract.Nodup)
    (hc : "consistency_token" ∉ get_non_field_csv_column_names cols) :
    "consistency_token" ∉ get_field_names_to_render model cols := by
  rw [get_field_names_eq]
  intro h
  rcases List.mem_append.mp h with h | h
  · exact hc h
  · exact hf.not_mem_erase (List.mem_filter.mp h).1

/-! Concrete fixtures used by the witnesses and the counterexample. -/

/-- A sample requesting user. -/
def user0 : UserT := { username := "alice" }

/-- A sample serialisation: every field reads as a non-list value `v`. -/
def dict0 : UserT → String → PyVal := fun _ _ => PyVal.atom "v"

/-- A sample episode of patient 1. -/
def ep1 : Episode :=
  { id := 1, patient_id := 1, start := "s", end_ := "e", created := "c",
    updated := "u", created_by_id := "cb", updated_by_id := "ub",
    tag_names := fun _ => [], to_dict := dict0 }

/-- A second sample episode of the same patient 1. -/
def ep2 : Episode :=
  { id := 2, patient_id := 1, start := "s", end_ := "e", created := "c",
    updated := "u", created_by_id := "cb", updated_by_id := "ub",
    tag_names := fun _ => [], to_dict := dict0 }

/-- A sample patient subrecord of patient 1. -/
def sub1 : SubInst :=
  { id := 1, patient_id := 1, episode_id := 1, episode_patient_id := 1,
    to_dict := dict0 }

/-- A sample subrecord model with extract field names `id`, `name` and
`consistency_token`. -/
def model0 : ModelInfo :=
  { fieldnames_to_extract := ["id", "name", "consistency_token"],
    field_title := pyTitle, is_singleton := false, display_name := "Birthday",
    api_name := "birthday", exclude_from_extract := false }

/-- A sample subrecord model whose only extract field name is `id`. -/
def model1 : ModelInfo :=
  { fieldnames_to_extract := ["id"], field_title := pyTitle,
    is_singleton := false, display_name := "Birthday", api_name := "birthday",
    exclude_from_extract := false }

/-- A sample subrecord model without an `id` extract field name. -/
def model_no_id : ModelInfo :=
  { fieldnames_to_extract := ["name"], field_title := pyTitle,
    is_singleton := false, display_name := "NoId", api_name := "no_id",
    exclude_from_extract := false }

/-! The claims. -/

/-- C4: a `CsvRenderer` constructed without an explicit fields argument
discovers as field list the names of its non-field csv columns, in
declaration order, followed by the model's extractable field names in their
original order with `consistency_token` removed and names already present as
non-field columns omitted; for duplicate-free column names and extract field
names (which the ORM guarantees) the resulting list has no duplicates. -/
theorem c4_field_discovery {Inst Args : Type} (model : ModelInfo)
    (cols : List (CsvColumn Inst Args))
    (hn : (get_non_field_csv_column_names cols).Nodup)
    (hf : model.fieldnames_to_extract.Nodup) :
    get_field_names_to_render model cols
      = get_non_field_csv_column_names cols
        ++ (model.fieldnames_to_extract.erase "consistency_token").filter
            (fun f => decide (f ∉ get_non_field_csv_column_names cols))
    ∧ (get_field_names_to_render model cols).Nodup :=
  ⟨get_field_names_eq model cols, get_field_names_nodup model cols hn hf⟩

/-- C4 witness: the discovery evaluated on a concrete model and the patient
subrecord columns. -/
theorem c4_witness :
    (get_field_names_to_render model0 psr_columns
      = get_non_field_csv_column_names psr_columns
        ++ (model0.fieldnames_to_extract.erase "consistency_token").filter
            (fun f => decide (f ∉ get_non_field_csv_column_names psr_columns)))
    ∧ (get_field_names_to_render model0 psr_columns).Nodup :=
  c4_field_discovery model0 psr_columns (by decide) (by decide)

/-- C6: `async_extract` returns exactly the id of the task obtained by
submitting `tasks.extract` with the user and the extract query, and its only
effect on the queue is that single submission. -/
theorem c6_async_extract (q : TaskQueue) (user : UserT)
    (extract_query : ExtractQuery) :
    (async_extract q user extract_query).1
      = (tasks_extract_delay q user extract_query).1.id
    ∧ (async_extract q user extract_query).2.submitted
      = q.submitted ++ [(user, extract_query)] :=
  ⟨rfl, rfl⟩

/-- C9: for both subrecord renderers built without an explicit fields
argument, the discovered field list contains neither `id` nor
`consistency_token` (given duplicate-free extract field names, as the ORM
guarantees), and for a model whose extract field names lack `id` the
discovery raises (`none`), so constructing the renderer raises an error. -/
theorem c9_subrecord_fields (model : ModelInfo)
    (hf : model.fieldnames_to_extract.Nodup) :
    (∀ l, psr_field_names_to_render model = some l →
      "id" ∉ l ∧ "consistency_token" ∉ l)
    ∧ (∀ l, esr_field_names_to_render model = some l →
      "id" ∉ l ∧ "consistency_token" ∉ l)
    ∧ ("id" ∉ model.fieldnames_to_extract →
      psr_field_names_to_render model = none
      ∧ esr_field_names_to_render model = none) := by
  have hpsr_nodup : (get_field_names_to_render model psr_columns).Nodup :=
    get_field_names_nodup model psr_columns (by decide) hf
  have hesr_nodup : (get_field_names_to_render model esr_columns).Nodup :=
    get_field_names_nodup model esr_columns (by decide) hf
  refine ⟨?_, ?_, ?_⟩
  · intro l hl
    obtain ⟨hid, hleq⟩ := psr_field_names_inv hl
    subst hleq
    refine ⟨hpsr_nodup.not_mem_erase, ?_⟩
    intro hmem
    exact ctoken_not_mem_field_names model psr_columns hf (by decide)
      ((List.erase_sublist _ _).subset hmem)
  · intro l hl
    obtain ⟨hid, hleq⟩ := esr_field_names_inv hl
    subst hleq
    refine ⟨hesr_nodup.not_mem_erase, ?_⟩
    intro hmem
    exact ctoken_not_mem_field_names model esr_columns hf (by decide)
      ((List.erase_sublist _ _).subset hmem)
  · intro hid
    have hpsr : "id" ∉ get_field_names_to_render model psr_columns := by
      rw [mem_get_field_names_iff model psr_columns "id" (by decide)]
      rintro (h | h)
      · revert h; decide
      · exact hid h
    have hesr : "id" ∉ get_field_names_to_render model esr_columns := by
      rw [mem_get_field_names_iff model esr_columns "id" (by decide)]
      rintro (h | h)
      · revert h; decide
      · exact hid h
    constructor
    · unfold psr_field_names_to_render
      rw [if_neg hpsr]
    · unfold esr_field_names_to_render
      rw [if_neg hesr]

/-- C9 witness: the discovered lists for a concrete model contain neither
`id` nor `consistency_token`, and discovery fails for a model without `id`. -/
theorem c9_witness :
    ("id" ∉ (["episode_id", "name"] : List String)
      ∧ "consistency_token" ∉ (["episode_id", "name"] : List String))
    ∧ (psr_field_names_to_render model_no_id = none
      ∧ esr_field_names_to_render model_no_id = none) :=
  ⟨(c9_subrecord_fields model0 (by decide)).1 ["episode_id", "name"] rfl,
   (c9_subrecord_fields model_no_id (by decide)).2.2 (by decide)⟩

/-- C10: `get_field_value` renders a field whose serialised value is a list as
the elements' text forms joined by a semicolon and a space, and any other
value as its text form. -/
theorem c10_field_value (field_name : String) (data : String → PyVal)
    (items : List String) (text : String) :
    (data field_name = PyVal.list items →
      get_field_value field_name data = String.intercalate "; " items)
    ∧ (data field_name = PyVal.atom text →
      get_field_value field_name data = text) := by
  constructor <;> intro h <;> unfold get_field_value <;> rw [h]

/-- C10 witness: a many-to-many style list value and a plain value. -/
theorem c10_witness :
    get_field_value "hats" (fun _ => PyVal.list ["bowler", "top"]) = "bowler; top"
    ∧ get_field_value "name" (fun _ => PyVal.atom "x") = "x" := by
  constructor
  · rw [(c10_field_value "hats" (fun _ => PyVal.list ["bowler", "top"])
      ["bowler", "top"] "").1 rfl]
    rfl
  · exact (c10_field_value "name" (fun _ => PyVal.atom "x") [] "x").2 rfl

/-- C8: every row produced by `get_row` has exactly as many cells as the
renderer has fields, which is also the length of the header row of
`get_headers`; hence every data row of a written csv (base `write_to_file`
and the `PatientSubrecordCsvRenderer` one) has the width of its header row. -/
theorem c8_row_width {Inst Args : Type} [PyInstance Inst]
    (r : CsvRenderer Inst Args) (inst : Inst) (args : Args)
    (r1 : CsvRenderer Inst Unit) (rp : PSRenderer) :
    (r.get_row inst args).length = r.fields.length
    ∧ r.get_headers.length = r.fields.length
    ∧ (∀ row ∈ r1.write_contents, row.length = r1.get_headers.length)
    ∧ (∀ row ∈ rp.write_contents, row.length = rp.base.get_headers.length) := by
  refine ⟨get_row_length r inst args, get_headers_length r, ?_, ?_⟩
  · intro row hrow
    rcases List.mem_cons.mp hrow with h | h
    · rw [h]
    · obtain ⟨i, _, hi⟩ := List.mem_map.mp h
      rw [← hi, get_row_length, get_headers_length]
  · intro row hrow
    rcases List.mem_cons.mp hrow with h | h
    · rw [h]
    · obtain ⟨sub, _, hsub⟩ := List.mem_flatMap.mp h
      obtain ⟨eid, _, heid⟩ := List.mem_map.mp hsub
      rw [← heid, get_row_length, get_headers_length]

/-- A concrete `PatientSubrecordCsvRenderer`, as built by `mkPSR` from one
subrecord of patient 1 and two episodes of patient 1 with explicit fields. -/
def psr_two_eps : PSRenderer :=
  { base := { model := model0, queryset := [sub1], user := user0,
              non_field_csv_columns := psr_columns,
              fields := ["episode_id", "name"] },
    episode_queryset := [ep1, ep2] }

/-- A concrete `EpisodeSubrecordCsvRenderer` state with explicit fields. -/
def esr_fixture : CsvRenderer SubInst Unit :=
  { model := model0, queryset := [sub1], user := user0,
    non_field_csv_columns := esr_columns, fields := ["patient_id", "name"] }

/-- C8 witness: concrete rows of the two writers have the header width. -/
theorem c8_witness :
    (psr_two_eps.base.get_row sub1 (1 : Nat)).length = psr_two_eps.base.fields.length
    ∧ (psr_two_eps.base.get_row sub1 1).length = psr_two_eps.base.get_headers.length :=
  ⟨(c8_row_width psr_two_eps.base sub1 1 esr_fixture psr_two_eps).1,
   (c8_row_width psr_two_eps.base sub1 1 esr_fixture psr_two_eps).2.2.2
     (psr_two_eps.base.get_row sub1 1)
     (List.mem_cons_of_mem _ (by
        refine List.mem_flatMap.mpr ⟨sub1, List.mem_cons_self sub1 [], ?_⟩
        refine List.mem_map.mpr ⟨1, by decide, rfl⟩))⟩

/-- C5 counterexample: `write_to_file` on a `PatientSubrecordCsvRenderer`
(the inherited method dispatching to the overridden `get_rows`) does not write
one data row per queryset element: with one subrecord whose patient has two
episodes in the queryset, it writes two data rows for the single element. -/
theorem c5_counterexample :
    mkPSR model0 [sub1] [ep1, ep2] user0 (some ["episode_id", "name"])
      = some psr_two_eps
    ∧ psr_two_eps.write_contents.length ≠ 1 + psr_two_eps.base.queryset.length :=
  ⟨rfl, by decide⟩

/-- C5 amended: for every renderer whose `get_rows` is the inherited
`CsvRenderer.get_rows` (the episode renderer and the episode-subrecord
renderer), `write_to_file` writes exactly one header row followed by exactly
one data row per queryset element, in queryset order; the
`PatientSubrecordCsvRenderer` instead writes one data row per
(subrecord, episode of that subrecord's patient) pair. -/
theorem c5_amended_write_to_file {Inst : Type} [PyInstance Inst]
    (r : CsvRenderer Inst Unit) (rp : PSRenderer) :
    r.write_contents = r.get_headers :: r.queryset.map (fun inst => r.get_row inst ())
    ∧ r.write_contents.length = 1 + r.queryset.length
    ∧ rp.write_contents
      = rp.base.get_headers ::
          rp.base.queryset.flatMap (fun sub =>
            (rp.patient_to_episode sub.patient_id).map (fun eid =>
              rp.base.get_row sub eid)) := by
  refine ⟨rfl, ?_, rfl⟩
  unfold CsvRenderer.write_contents CsvRenderer.get_rows
  rw [List.length_cons, List.length_map]
  omega

/-- C3: for a `PatientSubrecordCsvRenderer` built from an episode queryset,
`get_rows` yields, for each subrecord of the renderer queryset, exactly one
row per episode of that subrecord's patient in the episode queryset, in
order; the `Episode` column is the first column and every row carries the
episode's id there; a patient-level record whose patient has no episode in
the queryset is not in the renderer queryset, so it yields no rows. -/
theorem c3_patient_subrecord_rows (model : ModelInfo) (objects : List SubInst)
    (eps : List Episode) (user : UserT) (r : PSRenderer)
    (hmk : mkPSR model objects eps user none = some r) :
    r.get_rows
      = r.base.queryset.flatMap (fun sub =>
          (eps.filter (fun e => e.patient_id == sub.patient_id)).map (fun e =>
            r.base.get_row sub e.id))
    ∧ (∀ sub : SubInst, ∀ eid : Nat,
        (r.base.get_row sub eid).head? = some (toString eid))
    ∧ r.base.get_headers.head? = some "Episode"
    ∧ (∀ sub ∈ r.base.queryset, ∃ e ∈ eps, e.patient_id = sub.patient_id) := by
  obtain ⟨hmodel, hq, hepq, huser, hcols, hrf⟩ := mkPSR_inv hmk
  have hdisc : psr_field_names_to_render model = some r.base.fields := hrf
  obtain ⟨hid, hfields⟩ := psr_field_names_inv hdisc
  have hhead : ∃ t, r.base.fields = "episode_id" :: t := by
    rw [hfields, get_field_names_eq]
    simp only [psr_columns, get_non_field_csv_column_names, List.map_cons,
      List.map_nil, List.singleton_append]
    exact ⟨_, List.erase_cons_tail (by decide)⟩
  obtain ⟨t, ht⟩ := hhead
  refine ⟨?_, ?_, ?_, ?_⟩
  · unfold PSRenderer.get_rows PSRenderer.patient_to_episode
    rw [hepq]
    simp only [List.map_map]
    rfl
  · intro sub eid
    unfold CsvRenderer.get_row
    rw [hcols, ht]
    rfl
  · unfold CsvRenderer.get_headers
    rw [hcols, ht]
    rfl
  · intro sub hsub
    rw [hq] at hsub
    have h2 := (List.mem_filter.mp hsub).2
    obtain ⟨e, he, heq⟩ := List.any_eq_true.mp h2
    exact ⟨e, he, beq_iff_eq.mp heq⟩

/-- The `PatientSubrecordCsvRenderer` that `mkPSR` builds over the concrete
model with only an `id` extract field and an empty episode queryset. -/
def psr0 : PSRenderer :=
  { base := { model := model1, queryset := [], user := user0,
              non_field_csv_columns := psr_columns, fields := ["episode_id"] },
    episode_queryset := [] }

/-- C3 witness: for the concretely constructed renderer the `Episode` column
is first and a concrete row carries the episode id there. -/
theorem c3_witness :
    psr0.base.get_headers.head? = some "Episode"
    ∧ (psr0.base.get_row sub1 7).head? = some (toString 7) :=
  ⟨(c3_patient_subrecord_rows model1 [] [] user0 psr0 rfl).2.2.1,
   (c3_patient_subrecord_rows model1 [] [] user0 psr0 rfl).2.1 sub1 7⟩

/-- The class-level data of `opal.models.Episode` used in concrete fixtures. -/
def episode_model0 : ModelInfo :=
  { fieldnames_to_extract := ["id", "start", "end"], field_title := pyTitle,
    is_singleton := false, display_name := "Episode", api_name := "episode",
    exclude_from_extract := false }

/-- An environment with no registered subrecords. -/
def env0 : Env := { episode_model := episode_model0, subrecords := [] }

/-- Operations that all succeed. -/
def ops_ok : FsOps Nat :=
  { mkdtemp := Except.ok "/tmp/x", mkdir := fun _ => Except.ok (),
    render_data_schema := Except.ok "html",
    write_text := fun _ _ => Except.ok (),
    write_file := fun _ _ => Except.ok () }

/-- Operations whose `mkdtemp` fails with error 3. -/
def ops_fail_mkdtemp : FsOps Nat :=
  { mkdtemp := Except.error 3, mkdir := fun _ => Except.ok (),
    render_data_schema := Except.ok "html",
    write_text := fun _ _ => Except.ok (),
    write_file := fun _ _ => Except.ok () }

/-- Operations whose text write fails with error 5. -/
def ops_fail_write : FsOps Nat :=
  { mkdtemp := Except.ok "/tmp/x", mkdir := fun _ => Except.ok (),
    render_data_schema := Except.ok "html",
    write_text := fun _ _ => Except.error 5,
    write_file := fun _ _ => Except.ok () }

theorem esr_discovery_some (model : ModelInfo)
    (hid : "id" ∈ model.fieldnames_to_extract) :
    ∃ l, esr_field_names_to_render model = some l := by
  unfold esr_field_names_to_render
  rw [if_pos ((mem_get_field_names_iff model esr_columns "id" (by decide)).mpr
    (Or.inr hid))]
  exact ⟨_, rfl⟩

theorem psr_discovery_some (model : ModelInfo)
    (hid : "id" ∈ model.fieldnames_to_extract) :
    ∃ l, psr_field_names_to_render model = some l := by
  unfold psr_field_names_to_render
  rw [if_pos ((mem_get_field_names_iff model psr_columns "id" (by decide)).mpr
    (Or.inr hid))]
  exact ⟨_, rfl⟩

theorem multi_extract_ok (ops : FsOps ε) (root : String) (eps : List Episode)
    (user : UserT) (hw : ∀ p c, ops.write_file p c = Except.ok ()) :
    ∀ (subs : List SubrecordModel) (acc : List (String × String)),
    (∀ s ∈ subs, "id" ∈ s.model.fieldnames_to_extract) →
    multi_subrecord_extract ops root eps user subs acc
      = Except.ok (acc ++ (subs.filter (fun s =>
          !s.model.exclude_from_extract && (subrecord_match_count s eps != 0))).map
          (fun s => (pathJoin root (s.model.api_name ++ ".csv"),
                     s.model.api_name ++ ".csv"))) := by
  intro subs
  induction subs with
  | nil =>
    intro acc _
    simp [multi_subrecord_extract]
  | cons s rest ih =>
    intro acc hid
    have hids : "id" ∈ s.model.fieldnames_to_extract := hid s (List.mem_cons_self s rest)
    have hidr : ∀ s2 ∈ rest, "id" ∈ s2.model.fieldnames_to_extract :=
      fun s2 h2 => hid s2 (List.mem_cons_of_mem s h2)
    unfold multi_subrecord_extract
    by_cases hex : s.model.exclude_from_extract = true
    · simp only [hex, if_true, List.filter_cons, Bool.not_true, Bool.false_and,
        Bool.false_eq_true, if_false]
      exact ih acc hidr
    · have hexf : s.model.exclude_from_extract = false := by
        revert hex; cases s.model.exclude_from_extract <;> simp
      cases hk : s.kind with
      | episodeSub =>
        obtain ⟨l, hl⟩ := esr_discovery_some s.model hids
        have hmk : mkESR s.model s.objects eps user none
            = some { model := s.model,
                     queryset := s.objects.filter (fun o =>
                       eps.any (fun e => e.id == o.episode_id)),
                     user := user, non_field_csv_columns := esr_columns,
                     fields := l } := by
          unfold mkESR resolve_fields
          rw [hl]
          rfl
        have hcnt : subrecord_match_count s eps
            = (s.objects.filter (fun o =>
                eps.any (fun e => e.id == o.episode_id))).length := by
          unfold subrecord_match_count
          rw [hk]
        simp only [hexf, Bool.false_eq_true, if_false, hk, hmk]
        by_cases hc : (s.objects.filter (fun o =>
            eps.any (fun e => e.id == o.episode_id))).length = 0
        · have hcond : (!s.model.exclude_from_extract
              && (subrecord_match_count s eps != 0)) = false := by
            rw [hcnt, hexf, hc]
            rfl
          simp only [CsvRenderer.count, hc, List.filter_cons, hcond,
            Bool.false_eq_true, if_false]
          have : ((0 : Nat) != 0) = false := rfl
          simp only [this, Bool.false_eq_true, if_false]
          exact ih acc hidr
        · have hcond : (!s.model.exclude_from_extract
              && (subrecord_match_count s eps != 0)) = true := by
            rw [hcnt, hexf]
            simp [hc]
          have hne : ((s.objects.filter (fun o =>
              eps.any (fun e => e.id == o.episode_id))).length != 0) = true := by
            simp [hc]
          simp only [CsvRenderer.count, hne, if_true, CsvRenderer.write_to_fileE,
            liftFs, hw, List.filter_cons, hcond, List.map_cons]
          rw [ih (acc ++ [(pathJoin root (s.model.api_name ++ ".csv"),
            s.model.api_name ++ ".csv")]) hidr]
          simp [List.append_assoc]
      | patientSub =>
        obtain ⟨l, hl⟩ := psr_discovery_some s.model hids
        have hmk : mkPSR s.model s.objects eps user none
            = some ⟨⟨s.model,
                s.objects.filter (fun o =>
                  eps.any (fun e => e.patient_id == o.patient_id)),
                user, psr_columns, l⟩, eps⟩ := by
          unfold mkPSR resolve_fields
          rw [hl]
        have hcnt : subrecord_match_count s eps
            = (s.objects.filter (fun o =>
                eps.any (fun e => e.patient_id == o.patient_id))).length := by
          unfold subrecord_match_count
          rw [hk]
        simp only [hexf, Bool.false_eq_true, if_false, hk, hmk]
        by_cases hc : (s.objects.filter (fun o =>
            eps.any (fun e => e.patient_id == o.patient_id))).length = 0
        · have hcond : (!s.model.exclude_from_extract
              && (subrecord_match_count s eps != 0)) = false := by
            rw [hcnt, hexf, hc]
            rfl
          simp only [CsvRenderer.count, hc, List.filter_cons, hcond,
            Bool.false_eq_true, if_false]
          have : ((0 : Nat) != 0) = false := rfl
          simp only [this, Bool.false_eq_true, if_false]
          exact ih acc hidr
        · have hcond : (!s.model.exclude_from_extract
              && (subrecord_match_count s eps != 0)) = true := by
            rw [hcnt, hexf]
            simp [hc]
          have hne : ((s.objects.filter (fun o =>
              eps.any (fun e => e.patient_id == o.patient_id))).length != 0) = true := by
            simp [hc]
          simp only [CsvRenderer.count, hne, if_true, PSRenderer.write_to_fileE,
            liftFs, hw, List.filter_cons, hcond, List.map_cons]
          rw [ih (acc ++ [(pathJoin root (s.model.api_name ++ ".csv"),
            s.model.api_name ++ ".csv")]) hidr]
          simp [List.append_assoc]

/-- C1: `zip_archive` called without a fields argument returns the path of the
zip in the fresh temporary directory, and the archive entries are all placed
under the single folder `<username>.<date>` and consist of
`data_dictionary.html`, `episodes.csv`, and one `<api_name>.csv` per
subrecord type that is not marked `_exclude_from_extract` and has at least
one matching row. Hypotheses: the file operations succeed and (as for every
Django model) each subrecord model's extract field names include `id`. -/
theorem c1_zip_archive_contents (ops : FsOps ε) (env : Env) (eps : List Episode)
    (descr : String) (user : UserT) (today td html : String)
    (h1 : ops.mkdtemp = Except.ok td)
    (h2 : ∀ p, ops.mkdir p = Except.ok ())
    (h3 : ops.render_data_schema = Except.ok html)
    (h4 : ∀ p s, ops.write_text p s = Except.ok ())
    (h5 : ∀ p c, ops.write_file p c = Except.ok ())
    (hid : ∀ s ∈ env.subrecords, "id" ∈ s.model.fieldnames_to_extract) :
    zip_archiveE ops env eps descr user today none
      = Except.ok (pathJoin td "extract.zip",
          pathJoin (user.username ++ "." ++ today) "data_dictionary.html"
          :: pathJoin (user.username ++ "." ++ today) "episodes.csv"
          :: (env.subrecords.filter (fun s =>
                !s.model.exclude_from_extract
                && (subrecord_match_count s eps != 0))).map (fun s =>
              pathJoin (user.username ++ "." ++ today) (s.model.api_name ++ ".csv")))
    ∧ (∀ name ∈ pathJoin (user.username ++ "." ++ today) "data_dictionary.html"
          :: pathJoin (user.username ++ "." ++ today) "episodes.csv"
          :: (env.subrecords.filter (fun s =>
                !s.model.exclude_from_extract
                && (subrecord_match_count s eps != 0))).map (fun s =>
              pathJoin (user.username ++ "." ++ today) (s.model.api_name ++ ".csv")),
        ∃ rest, name = pathJoin (user.username ++ "." ++ today) rest) := by
  constructor
  · have hms := multi_extract_ok ops (pathJoin td (user.username ++ "." ++ today)) eps
      user h5 env.subrecords
      [(pathJoin (pathJoin td (user.username ++ "." ++ today)) "data_dictionary.html",
        "data_dictionary.html"),
       (pathJoin (pathJoin td (user.username ++ "." ++ today)) "episodes.csv",
        "episodes.csv")] hid
    simp only [zip_archiveE, generate_multi_csv_extractE, write_data_dictionaryE,
      CsvRenderer.write_to_fileE, liftFs, h1, h2, h3, h4, h5, hms]
    simp [List.map_map, Function.comp]
  · intro name hname
    rcases List.mem_cons.mp hname with h | h
    · exact ⟨"data_dictionary.html", h⟩
    rcases List.mem_cons.mp h with h | h
    · exact ⟨"episodes.csv", h⟩
    obtain ⟨s, _, hs⟩ := List.mem_map.mp h
    exact ⟨s.model.api_name ++ ".csv", hs.symm⟩

/-- A concrete non-excluded episode subrecord model. -/
def hatwearer_model : ModelInfo :=
  { fieldnames_to_extract := ["id", "name", "consistency_token"],
    field_title := pyTitle, is_singleton := false,
    display_name := "Wearer of Hats", api_name := "hat_wearer",
    exclude_from_extract := false }

/-- A concrete subrecord model marked `_exclude_from_extract`. -/
def colour_model : ModelInfo :=
  { fieldnames_to_extract := ["id", "name", "consistency_token"],
    field_title := pyTitle, is_singleton := false, display_name := "Colour",
    api_name := "colour", exclude_from_extract := true }

/-- An environment with one matching episode subrecord type and one excluded
type. -/
def env1 : Env :=
  { episode_model := episode_model0,
    subrecords := [⟨SubKind.episodeSub, hatwearer_model, [sub1]⟩,
                   ⟨SubKind.patientSub, colour_model, [sub1]⟩] }

/-- C1 witness: the concrete archive has the three expected entries under the
`alice.2020-01-01` folder, and a concrete entry lies under that folder. -/
theorem c1_witness :
    zip_archiveE ops_ok env1 [ep1] "d" user0 "2020-01-01" none
      = Except.ok ("/tmp/x/extract.zip",
          ["alice.2020-01-01/data_dictionary.html",
           "alice.2020-01-01/episodes.csv",
           "alice.2020-01-01/hat_wearer.csv"])
    ∧ ∃ rest, "alice.2020-01-01/episodes.csv"
        = pathJoin (user0.username ++ "." ++ "2020-01-01") rest :=
  ⟨(c1_zip_archive_contents ops_ok env1 [ep1] "d" user0 "2020-01-01" "/tmp/x" "html"
      rfl (fun _ => rfl) rfl (fun _ _ => rfl) (fun _ _ => rfl) (by decide)).1,
   (c1_zip_archive_contents ops_ok env1 [ep1] "d" user0 "2020-01-01" "/tmp/x" "html"
      rfl (fun _ => rfl) rfl (fun _ _ => rfl) (fun _ _ => rfl) (by decide)).2
     "alice.2020-01-01/episodes.csv" (by decide)⟩

theorem nodup_key_count_le_one {α : Type} (l : List α) (k : α → Nat)
    (h : (l.map k).Nodup) (pid : Nat) :
    (l.filter (fun s => k s == pid)).length ≤ 1 := by
  have h1 := List.nodup_iff_count_le_one.mp h pid
  rw [← List.countP_eq_length_filter]
  calc List.countP (fun s => k s == pid) l
      = List.countP (fun x => x == pid) (l.map k) := by rw [List.countP_map]; rfl
    _ = List.count pid (l.map k) := rfl
    _ ≤ 1 := h1

theorem nodup_key_filter {α : Type} (l : List α) (p : α → Bool) (k : α → Nat)
    (h : (l.map k).Nodup) : ((l.filter p).map k).Nodup :=
  List.Nodup.sublist (List.Sublist.map k (List.filter_sublist l)) h

/-- The data invariant behind `_is_singleton` subrecord classes (enforced by
the opal model layer outside the extract code): at most one row per patient
for a patient subrecord, at most one row per episode for an episode
subrecord, expressed as duplicate-freeness of the owning ids. -/
def singleton_data_ok (s : SubrecordModel) : Prop :=
  s.model.is_singleton = true →
    match s.kind with
    | SubKind.patientSub => (s.objects.map (fun o => o.patient_id)).Nodup
    | SubKind.episodeSub => (s.objects.map (fun o => o.episode_id)).Nodup

theorem psr_nested_ok {model : ModelInfo} {objects : List SubInst}
    {eps : List Episode} {user : UserT} {fields : Option (List String)}
    {r : PSRenderer} (hmk : mkPSR model objects eps user fields = some r)
    (hsing : model.is_singleton = true →
      (objects.map (fun o => o.patient_id)).Nodup) :
    (psrNestedRenderer r).flat_row_length = (psrNestedRenderer r).flat_headers.length
    ∧ ∀ ep ∈ eps, ((psrNestedRenderer r).nested_row ep).length
        = (psrNestedRenderer r).flat_row_length := by
  obtain ⟨hmodel, hq, hepq, huser, hcols, hrf⟩ := mkPSR_inv hmk
  refine ⟨rfl, ?_⟩
  intro ep _
  have hs : r.base.model.is_singleton = true →
      ∀ pid, (r.base.queryset.filter (fun s => s.patient_id == pid)).length ≤ 1 := by
    intro hsg pid
    apply nodup_key_count_le_one
    rw [hq]
    exact nodup_key_filter objects _ _ (hsing (hmodel ▸ hsg))
  exact psr_nested_row_length r ep hs

theorem esr_nested_ok {model : ModelInfo} {objects : List SubInst}
    {eps : List Episode} {user : UserT} {fields : Option (List String)}
    {r : CsvRenderer SubInst Unit} (hmk : mkESR model objects eps user fields = some r)
    (hsing : model.is_singleton = true →
      (objects.map (fun o => o.episode_id)).Nodup) :
    (esrNestedRenderer r).flat_row_length = (esrNestedRenderer r).flat_headers.length
    ∧ ∀ ep ∈ eps, ((esrNestedRenderer r).nested_row ep).length
        = (esrNestedRenderer r).flat_row_length := by
  obtain ⟨hmodel, hq, huser, hcols, hrf⟩ := mkESR_inv hmk
  refine ⟨rfl, ?_⟩
  intro ep _
  have hs : r.model.is_singleton = true →
      ∀ eid, (r.queryset.filter (fun s => s.episode_id == eid)).length ≤ 1 := by
    intro hsg eid
    apply nodup_key_count_le_one
    rw [hq]
    exact nodup_key_filter objects _ _ (hsing (hmodel ▸ hsg))
  exact esr_nested_row_length r ep hs

theorem episode_nested_ok (r : CsvRenderer Episode Unit) :
    (episodeNestedRenderer r).flat_row_length
      = (episodeNestedRenderer r).flat_headers.length
    ∧ ∀ ep : Episode, ((episodeNestedRenderer r).nested_row ep).length
        = (episodeNestedRenderer r).flat_row_length :=
  ⟨rfl, fun ep => episode_nested_row_length r ep⟩

theorem build_one_nested_ok (env : Env) (eps : List Episode) (user : UserT)
    (hsing : ∀ s ∈ env.subrecords, singleton_data_ok s)
    (item : String × List String) (nr : NestedRenderer)
    (h : build_one_nested env eps user item = some nr) :
    nr.flat_row_length = nr.flat_headers.length
    ∧ ∀ ep ∈ eps, (nr.nested_row ep).length = nr.flat_row_length := by
  cases hl : lookup_subrecord env item.1 with
  | none => simp only [build_one_nested, hl] at h; cases h
  | some s =>
    simp only [build_one_nested, hl] at h
    have hsmem : s ∈ env.subrecords := List.mem_of_find?_eq_some hl
    have hss := hsing s hsmem
    cases hk : s.kind with
    | episodeSub =>
      rw [hk] at h
      cases hmk : mkESR s.model s.objects eps user (some item.2) with
      | none => rw [hmk] at h; cases h
      | some r =>
        rw [hmk] at h
        injection h with h
        subst h
        refine esr_nested_ok hmk ?_
        intro hsg
        have hsk := hss hsg
        rw [hk] at hsk
        exact hsk
    | patientSub =>
      rw [hk] at h
      cases hmk : mkPSR s.model s.objects eps user (some item.2) with
      | none => rw [hmk] at h; cases h
      | some r =>
        rw [hmk] at h
        injection h with h
        subst h
        refine psr_nested_ok hmk ?_
        intro hsg
        have hsk := hss hsg
        rw [hk] at hsk
        exact hsk

theorem build_rest_nested_ok (env : Env) (eps : List Episode) (user : UserT)
    (hsing : ∀ s ∈ env.subrecords, singleton_data_ok s) :
    ∀ (items : List (String × List String)) (rs : List NestedRenderer),
    build_rest_nested env eps user items = some rs →
    ∀ nr ∈ rs, nr.flat_row_length = nr.flat_headers.length
      ∧ ∀ ep ∈ eps, (nr.nested_row ep).length = nr.flat_row_length := by
  intro items
  induction items with
  | nil =>
    intro rs h nr hnr
    unfold build_rest_nested at h
    injection h with h
    subst h
    cases hnr
  | cons item rest ih =>
    intro rs h nr hnr
    unfold build_rest_nested at h
    cases h1 : build_one_nested env eps user item with
    | none => rw [h1] at h; cases h
    | some r =>
      rw [h1] at h
      cases h2 : build_rest_nested env eps user rest with
      | none => rw [h2] at h; cases h
      | some rs2 =>
        rw [h2] at h
        injection h with h
        subst h
        rcases List.mem_cons.mp hnr with hh | hh
        · subst hh
          exact build_one_nested_ok env eps user hsing item nr h1
        · exact ih rs2 h2 nr hh

theorem build_nested_renderers_ok (env : Env) (eps : List Episode) (user : UserT)
    (field_dict : List (String × List String)) (rs : List NestedRenderer)
    (hsing : ∀ s ∈ env.subrecords, singleton_data_ok s)
    (hb : build_nested_renderers env eps user field_dict = some rs) :
    ∀ nr ∈ rs, nr.flat_row_length = nr.flat_headers.length
      ∧ ∀ ep ∈ eps, (nr.nested_row ep).length = nr.flat_row_length := by
  cases h2 : build_rest_nested env eps user
      (field_dict.filter (fun kv => kv.1 != "episode")) with
  | none =>
    unfold build_nested_renderers at hb
    rw [h2] at hb
    simp at hb
  | some rest =>
    unfold build_nested_renderers at hb
    rw [h2] at hb
    cases hf : field_dict.find? (fun kv => kv.1 == "episode") with
    | none =>
      rw [hf] at hb
      simp only [List.nil_append, Option.some.injEq] at hb
      subst hb
      intro nr hnr
      exact build_rest_nested_ok env eps user hsing _ rest h2 nr hnr
    | some kv =>
      rw [hf] at hb
      simp only [List.singleton_append, Option.some.injEq] at hb
      subst hb
      intro nr hnr
      rcases List.mem_cons.mp hnr with hh | hh
      · subst hh
        exact ⟨(episode_nested_ok _).1, fun ep _ => (episode_nested_ok _).2 ep⟩
      · exact build_rest_nested_ok env eps user hsing _ rest h2 nr hh

/-- C2: `generate_nested_csv_extract` writes the single csv `extract.csv`
(besides the data dictionary) whose content is exactly one header row
followed by exactly one flat row per episode; in every row each built
renderer contributes exactly `flat_row_length` cells — its `get_nested_row`,
the concatenated subrecord rows padded with empty cells — and
`flat_row_length` is the number of that renderer's flat headers. Hypotheses:
the renderers build, the `_is_singleton` data invariant holds, and the file
operations succeed. -/
theorem c2_nested_extract (ops : FsOps ε) (env : Env) (root_dir : String)
    (eps : List Episode) (user : UserT)
    (field_dict : List (String × List String)) (rs : List NestedRenderer)
    (html : String)
    (hb : build_nested_renderers env eps user field_dict = some rs)
    (hsing : ∀ s ∈ env.subrecords, singleton_data_ok s)
    (h3 : ops.render_data_schema = Except.ok html)
    (h4 : ∀ p s, ops.write_text p s = Except.ok ())
    (h5 : ∀ p c, ops.write_file p c = Except.ok ()) :
    generate_nested_csv_extractE ops env root_dir eps user field_dict
      = Except.ok [(pathJoin root_dir "data_dictionary.html", "data_dictionary.html"),
                   (pathJoin root_dir "extract.csv", "extract.csv")]
    ∧ nested_csv_content rs eps
      = (rs.flatMap (fun nr => nr.flat_headers))
        :: eps.map (fun ep => rs.flatMap (fun nr => nr.nested_row ep))
    ∧ (nested_csv_content rs eps).length = 1 + eps.length
    ∧ (∀ nr ∈ rs, nr.flat_row_length = nr.flat_headers.length
        ∧ ∀ ep ∈ eps, (nr.nested_row ep).length = nr.flat_row_length) := by
  refine ⟨?_, rfl, ?_,
    build_nested_renderers_ok env eps user field_dict rs hsing hb⟩
  · simp only [generate_nested_csv_extractE, write_data_dictionaryE, liftFs,
      h3, h4, hb, h5]
  · unfold nested_csv_content
    rw [List.length_cons, List.length_map]
    omega

/-- The single renderer that `generate_nested_csv_extract` builds for a field
dict holding just the `episode` key with field `start`, over no episodes. -/
def rs0 : List NestedRenderer :=
  [episodeNestedRenderer (mkEpisodeCsvRenderer episode_model0 [] user0
    (some ["start"]))]

/-- C2 witness: the concrete nested extract writes the two files and its csv
content has one header row and one row per episode. -/
theorem c2_witness :
    generate_nested_csv_extractE ops_ok env0 "/tmp/x" [] user0
        [("episode", ["start"])]
      = Except.ok [("/tmp/x/data_dictionary.html", "data_dictionary.html"),
                   ("/tmp/x/extract.csv", "extract.csv")]
    ∧ (nested_csv_content rs0 []).length = 1 + ([] : List Episode).length :=
  ⟨(c2_nested_extract ops_ok env0 "/tmp/x" [] user0 [("episode", ["start"])] rs0
      "html" rfl (fun s hs => absurd hs (List.not_mem_nil s)) rfl
      (fun _ _ => rfl) (fun _ _ => rfl)).1,
   (c2_nested_extract ops_ok env0 "/tmp/x" [] user0 [("episode", ["start"])] rs0
      "html" rfl (fun s hs => absurd hs (List.not_mem_nil s)) rfl
      (fun _ _ => rfl) (fun _ _ => rfl)).2.2.1⟩

/-- Operations whose csv write fails with error 7 everywhere. -/
def ops_fail_csv : FsOps Nat :=
  { mkdtemp := Except.ok "/tmp/x", mkdir := fun _ => Except.ok (),
    render_data_schema := Except.ok "html",
    write_text := fun _ _ => Except.ok (),
    write_file := fun _ _ => Except.error 7 }

/-- Operations whose csv write succeeds for `episodes.csv` under `/r` but
fails with error 7 for every other path, isolating a subrecord csv write
failure. -/
def ops_fail_subrecord_csv : FsOps Nat :=
  { mkdtemp := Except.ok "/tmp/x", mkdir := fun _ => Except.ok (),
    render_data_schema := Except.ok "html",
    write_text := fun _ _ => Except.ok (),
    write_file := fun p _ =>
      if p = pathJoin "/r" "episodes.csv" then Except.ok ()
      else Except.error 7 }

theorem multi_subrecord_extract_write_error (ops : FsOps ε) (root : String)
    (eps : List Episode) (user : UserT) (e : ε) (s : SubrecordModel)
    (rest : List SubrecordModel) (acc : List (String × String))
    (hex : s.model.exclude_from_extract = false)
    (hid : "id" ∈ s.model.fieldnames_to_extract)
    (hcnt : subrecord_match_count s eps ≠ 0)
    (hwf : ∀ c, ops.write_file (pathJoin root (s.model.api_name ++ ".csv")) c
      = Except.error e) :
    multi_subrecord_extract ops root eps user (s :: rest) acc
      = Except.error (PyError.fsError e) := by
  unfold multi_subrecord_extract
  cases hk : s.kind with
  | episodeSub =>
    obtain ⟨l, hl⟩ := esr_discovery_some s.model hid
    have hmk : mkESR s.model s.objects eps user none
        = some ⟨s.model,
            s.objects.filter (fun o =>
              eps.any (fun e2 => e2.id == o.episode_id)),
            user, esr_columns, l⟩ := by
      unfold mkESR resolve_fields
      rw [hl]
      rfl
    have hc : (s.objects.filter (fun o =>
        eps.any (fun e2 => e2.id == o.episode_id))).length ≠ 0 := by
      intro h0
      apply hcnt
      unfold subrecord_match_count
      rw [hk]
      exact h0
    have hne : ((s.objects.filter (fun o =>
        eps.any (fun e2 => e2.id == o.episode_id))).length != 0) = true := by
      simp [hc]
    simp only [hex, Bool.false_eq_true, if_false, hk, hmk, CsvRenderer.count,
      hne, if_true, CsvRenderer.write_to_fileE, liftFs, hwf]
  | patientSub =>
    obtain ⟨l, hl⟩ := psr_discovery_some s.model hid
    have hmk : mkPSR s.model s.objects eps user none
        = some ⟨⟨s.model,
            s.objects.filter (fun o =>
              eps.any (fun e2 => e2.patient_id == o.patient_id)),
            user, psr_columns, l⟩, eps⟩ := by
      unfold mkPSR resolve_fields
      rw [hl]
    have hc : (s.objects.filter (fun o =>
        eps.any (fun e2 => e2.patient_id == o.patient_id))).length ≠ 0 := by
      intro h0
      apply hcnt
      unfold subrecord_match_count
      rw [hk]
      exact h0
    have hne : ((s.objects.filter (fun o =>
        eps.any (fun e2 => e2.patient_id == o.patient_id))).length != 0) = true := by
      simp [hc]
    simp only [hex, Bool.false_eq_true, if_false, hk, hmk, CsvRenderer.count,
      hne, if_true, PSRenderer.write_to_fileE, liftFs, hwf]

/-- C7: the pipeline catches and transforms nothing: an error raised by an
underlying file-system or framework operation propagates unchanged (carried
by `PyError.fsError`) to the caller. Shown for every modelled error source on
both paths of `zip_archive`: `mkdtemp` and `mkdir`; the data-dictionary
template rendering, the data-dictionary file write and the csv file write,
each on the multi-file path (`fields` absent) and on the nested path
(`generate_nested_csv_extract`, truthy `fields`); and a subrecord csv write
failing inside `generate_multi_csv_extract` after the earlier writes
succeeded. -/
theorem c7_error_propagation (ops : FsOps ε) (env : Env) (eps : List Episode)
    (descr : String) (user : UserT) (today : String) (e : ε) :
    (ops.mkdtemp = Except.error e →
      zip_archiveE ops env eps descr user today none
        = Except.error (PyError.fsError e))
    ∧ (∀ td, ops.mkdtemp = Except.ok td →
        (∀ p, ops.mkdir p = Except.error e) →
        zip_archiveE ops env eps descr user today none
          = Except.error (PyError.fsError e))
    ∧ (∀ td, ops.mkdtemp = Except.ok td →
        (∀ p, ops.mkdir p = Except.ok ()) →
        ops.render_data_schema = Except.error e →
        zip_archiveE ops env eps descr user today none
          = Except.error (PyError.fsError e))
    ∧ (∀ td html, ops.mkdtemp = Except.ok td →
        (∀ p, ops.mkdir p = Except.ok ()) →
        ops.render_data_schema = Except.ok html →
        (∀ p s, ops.write_text p s = Except.error e) →
        zip_archiveE ops env eps descr user today none
          = Except.error (PyError.fsError e))
    ∧ (∀ td html, ops.mkdtemp = Except.ok td →
        (∀ p, ops.mkdir p = Except.ok ()) →
        ops.render_data_schema = Except.ok html →
        (∀ p s, ops.write_text p s = Except.ok ()) →
        (∀ p c, ops.write_file p c = Except.error e) →
        zip_archiveE ops env eps descr user today none
          = Except.error (PyError.fsError e))
    ∧ (∀ fd td, fd.isEmpty = false → ops.mkdtemp = Except.ok td →
        (∀ p, ops.mkdir p = Except.ok ()) →
        ops.render_data_schema = Except.error e →
        zip_archiveE ops env eps descr user today (some fd)
          = Except.error (PyError.fsError e))
    ∧ (∀ fd td html, fd.isEmpty = false → ops.mkdtemp = Except.ok td →
        (∀ p, ops.mkdir p = Except.ok ()) →
        ops.render_data_schema = Except.ok html →
        (∀ p s, ops.write_text p s = Except.error e) →
        zip_archiveE ops env eps descr user today (some fd)
          = Except.error (PyError.fsError e))
    ∧ (∀ fd td html rs, fd.isEmpty = false → ops.mkdtemp = Except.ok td →
        (∀ p, ops.mkdir p = Except.ok ()) →
        ops.render_data_schema = Except.ok html →
        (∀ p s, ops.write_text p s = Except.ok ()) →
        build_nested_renderers env eps user fd = some rs →
        (∀ p c, ops.write_file p c = Except.error e) →
        zip_archiveE ops env eps descr user today (some fd)
          = Except.error (PyError.fsError e))
    ∧ (∀ root_dir html s rest, env.subrecords = s :: rest →
        ops.render_data_schema = Except.ok html →
        (∀ p str, ops.write_text p str = Except.ok ()) →
        (∀ c, ops.write_file (pathJoin root_dir "episodes.csv") c = Except.ok ()) →
        s.model.exclude_from_extract = false →
        "id" ∈ s.model.fieldnames_to_extract →
        subrecord_match_count s eps ≠ 0 →
        (∀ c, ops.write_file (pathJoin root_dir (s.model.api_name ++ ".csv")) c
          = Except.error e) →
        generate_multi_csv_extractE ops env root_dir eps user
          = Except.error (PyError.fsError e)) := by
  refine ⟨?_, ?_, ?_, ?_, ?_, ?_, ?_, ?_, ?_⟩
  · intro h
    simp [zip_archiveE, liftFs, h]
  · intro td h1 h2
    simp [zip_archiveE, liftFs, h1, h2]
  · intro td h1 h2 h3
    simp [zip_archiveE, generate_multi_csv_extractE, write_data_dictionaryE,
      liftFs, h1, h2, h3]
  · intro td html h1 h2 h3 h4
    simp [zip_archiveE, generate_multi_csv_extractE, write_data_dictionaryE,
      liftFs, h1, h2, h3, h4]
  · intro td html h1 h2 h3 h4 h5
    simp [zip_archiveE, generate_multi_csv_extractE, write_data_dictionaryE,
      CsvRenderer.write_to_fileE, liftFs, h1, h2, h3, h4, h5]
  · intro fd td hne h1 h2 h3
    simp [zip_archiveE, generate_nested_csv_extractE, write_data_dictionaryE,
      liftFs, h1, h2, h3, hne]
  · intro fd td html hne h1 h2 h3 h4
    simp [zip_archiveE, generate_nested_csv_extractE, write_data_dictionaryE,
      liftFs, h1, h2, h3, h4, hne]
  · intro fd td html rs hne h1 h2 h3 h4 hb hw
    simp [zip_archiveE, generate_nested_csv_extractE, write_data_dictionaryE,
      liftFs, h1, h2, h3, h4, hne, hb, hw]
  · intro root_dir html s rest henv hr hwt heps hex hid hcnt hwf
    have hstep := multi_subrecord_extract_write_error ops root_dir eps user e s rest
      [(pathJoin root_dir "data_dictionary.html", "data_dictionary.html"),
       (pathJoin root_dir "episodes.csv", "episodes.csv")] hex hid hcnt hwf
    simp only [generate_multi_csv_extractE, write_data_dictionaryE, liftFs, hr,
      hwt, CsvRenderer.write_to_fileE, heps, henv, hstep]

/-- C7 witness: concrete failing operations at five different stages, covering
both extract paths and the csv writes. -/
theorem c7_witness :
    zip_archiveE ops_fail_mkdtemp env0 [] "d" user0 "2020-01-01" none
      = Except.error (PyError.fsError 3)
    ∧ zip_archiveE ops_fail_write env0 [] "d" user0 "2020-01-01" none
      = Except.error (PyError.fsError 5)
    ∧ zip_archiveE ops_fail_csv env0 [] "d" user0 "2020-01-01" none
      = Except.error (PyError.fsError 7)
    ∧ zip_archiveE ops_fail_csv env0 [] "d" user0 "2020-01-01"
        (some [("episode", ["start"])])
      = Except.error (PyError.fsError 7)
    ∧ generate_multi_csv_extractE ops_fail_subrecord_csv env1 "/r" [ep1] user0
      = Except.error (PyError.fsError 7) :=
  ⟨(c7_error_propagation ops_fail_mkdtemp env0 [] "d" user0 "2020-01-01" 3).1 rfl,
   (c7_error_propagation ops_fail_write env0 [] "d" user0 "2020-01-01" 5).2.2.2.1
     "/tmp/x" "html" rfl (fun _ => rfl) rfl (fun _ _ => rfl),
   (c7_error_propagation ops_fail_csv env0 [] "d" user0 "2020-01-01" 7).2.2.2.2.1
     "/tmp/x" "html" rfl (fun _ => rfl) rfl (fun _ _ => rfl) (fun _ _ => rfl),
   (c7_error_propagation ops_fail_csv env0 [] "d" user0 "2020-01-01" 7).2.2.2.2.2.2.2.1
     [("episode", ["start"])] "/tmp/x" "html" rs0 rfl rfl (fun _ => rfl) rfl
     (fun _ _ => rfl) rfl (fun _ _ => rfl),
   (c7_error_propagation ops_fail_subrecord_csv env1 [ep1] "d" user0 "2020-01-01"
       7).2.2.2.2.2.2.2.2
     "/r" "html" ⟨SubKind.episodeSub, hatwearer_model, [sub1]⟩
     [⟨SubKind.patientSub, colour_model, [sub1]⟩] rfl rfl (fun _ _ => rfl)
     (fun _ => rfl) rfl (by decide) (by decide) (fun _ => rfl)⟩
